import Mathlib

/-!
Verification of the BUDDY core sync/security layer.

This file shallowly embeds the CRDT synchronization engine
(`packages/core/buddy/sync.py`, class `SyncEngine`) and the device-trust /
permission layer (`packages/core/buddy/security.py`, class `SecurityManager`)
and proves the spec's testable properties against it.

Python dictionaries are embedded as association lists `List (String × α)`
with first-match lookup; a well-formed dictionary has `Nodup` keys (a real
Python dict can never have two entries with the same key, so theorems may
assume it where it matters).  Mutating dict assignment keeps the position of
an existing key and appends fresh keys at the end, exactly as CPython does.
-/

namespace Buddy

/-- First-match lookup in an association list; `none` when the key is absent
(Python `d[k]` / `k in d`). -/
def dlookup {α : Type} : List (String × α) → String → Option α
  | [], _ => none
  | (k0, v) :: rest, k => if k0 = k then some v else dlookup rest k

/-- Lookup with default 0 (Python `d.get(k, 0)` on an int-valued dict). -/
def dlookup0 (c : List (String × Nat)) (k : String) : Nat :=
  (dlookup c k).getD 0

/-- Dict assignment `d[k] = v`: replaces the value at the first occurrence of
`k`, or appends `(k, v)` at the end when `k` is absent (CPython insertion
order semantics). -/
def dictSet {α : Type} : List (String × α) → String → α → List (String × α)
  | [], k, v => [(k, v)]
  | (k0, v0) :: rest, k, v =>
      if k0 = k then (k0, v) :: rest else (k0, v0) :: dictSet rest k v

/-- Dict deletion `del d[k]`: removes the first occurrence of `k`. -/
def dictRemove {α : Type} : List (String × α) → String → List (String × α)
  | [], _ => []
  | (k0, v0) :: rest, k =>
      if k0 = k then rest else (k0, v0) :: dictRemove rest k

/-- Python `d.update(other)`: assigns every pair of `other`, in order. -/
def dictUpdate {α : Type} : List (String × α) → List (String × α) → List (String × α)
  | c, [] => c
  | c, (k, v) :: rest => dictUpdate (dictSet c k v) rest

/-- The key list of a dict. -/
def keysOf {α : Type} (c : List (String × α)) : List String :=
  c.map Prod.fst

/-- The last value bound to `k` in a pair list (the one a left-to-right
sequence of assignments leaves in place). -/
def lastVal {α : Type} : List (String × α) → String → Option α
  | [], _ => none
  | (k0, v0) :: rest, k =>
      match lastVal rest k with
      | some v => some v
      | none => if k0 = k then some v0 else none

/-- The maximum value bound to `d` among the entries of a clock list
(equals `dlookup0 c d` when the keys are distinct). -/
def entriesMax : List (String × Nat) → String → Nat
  | [], _ => 0
  | (k, t) :: rest, d =>
      if k = d then max t (entriesMax rest d) else entriesMax rest d

/-- `SyncEngine._apply_operation`, lines 457-461: for every entry of the
operation's clock, `self.vector_clock[d] = max(self.vector_clock.get(d, 0), t)`. -/
def vcMergeMax (g : List (String × Nat)) : List (String × Nat) → List (String × Nat)
  | [] => g
  | (d, t) :: rest => vcMergeMax (dictSet g d (max (dlookup0 g d) t)) rest

/-- `sync.py` `CRDTDocument` (dataclass, lines 73-81).  `last_modified`
is a wall-clock timestamp, advisory only; embedded as `Nat`.  Content values
are opaque to the engine; embedded as `String`. -/
structure CRDTDocument where
  document_id : String
  document_type : String
  content : List (String × String)
  vector_clock : List (String × Nat)
  last_modified : Nat
  created_by : String
deriving DecidableEq

/-- The `data` dict of a `SyncOperation`: `_apply_operation` reads
`data.get("type", "unknown")` and `data.get("content", {})`;
`_create_sync_operation` reads `data.get("document_id", "unknown")`.
`Option` keeps the present/absent distinction of `dict.get`. -/
structure OpData where
  dtype : Option String
  dcontent : Option (List (String × String))
  ddocument_id : Option String
deriving DecidableEq

/-- `sync.py` `SyncOperation` (dataclass, lines 60-70): signatures are byte
strings, embedded as `List Nat` (absent = `none`, Python `None`). -/
structure SyncOperation where
  operation_id : String
  device_id : String
  document_id : String
  operation_type : String
  data : OpData
  timestamp : Nat
  vector_clock : List (String × Nat)
  signature : Option (List Nat)
deriving DecidableEq

/-- `sync.py` `DeviceInfo` (dataclass, lines 42-57), the fields `add_device`
reads. -/
structure DeviceInfo where
  device_id : String
  device_name : String
  device_type : String
  is_trusted : Bool
deriving DecidableEq

/-- The mutable state of `SyncEngine` that the claims are about:
`self.vector_clock` (the global vector clock), `self.documents` (the CRDT
document store), `self.connected_devices`, and the fixed `self.device_id`. -/
structure SyncEngineState where
  device_id : String
  vector_clock : List (String × Nat)
  documents : List (String × CRDTDocument)
  connected_devices : List (String × DeviceInfo)
deriving DecidableEq

/-- Loop body of `SyncEngine._is_operation_newer` (lines 500-514): iterate
the operation's clock entries, track the `is_newer` flag, return `False`
immediately on a strictly smaller entry. -/
def newerLoop (docClock : List (String × Nat)) :
    List (String × Nat) → Bool → Bool
  | [], acc => acc
  | (d, t) :: rest, acc =>
      if dlookup0 docClock d < t then newerLoop docClock rest true
      else if t < dlookup0 docClock d then false
      else newerLoop docClock rest acc

/-- `SyncEngine._is_operation_newer`: the operation's clock dominates the
document's clock on the operation's entries, with at least one strict
increase. -/
def isOperationNewer (op : SyncOperation) (doc : CRDTDocument) : Bool :=
  newerLoop doc.vector_clock op.vector_clock false

/-- The document built by the `create` branch of `_apply_operation`
(lines 466-475). -/
def newDoc (op : SyncOperation) : CRDTDocument :=
  { document_id := op.document_id
    document_type := op.data.dtype.getD "unknown"
    content := op.data.dcontent.getD []
    vector_clock := op.vector_clock
    last_modified := op.timestamp
    created_by := op.device_id }

/-- The in-place mutation of the `update` branch of `_apply_operation`
(lines 482-487): merge payload content last-writer-wins per key, then
REPLACE the document clock with the operation's clock. -/
def updDoc (op : SyncOperation) (doc : CRDTDocument) : CRDTDocument :=
  { doc with
    content := dictUpdate doc.content (op.data.dcontent.getD [])
    vector_clock := op.vector_clock
    last_modified := op.timestamp }

/-- The document-store part of `SyncEngine._apply_operation` (lines 463-491):
`create` inserts only when absent; `update` mutates only when present and
newer; `delete` removes whenever present, with no clock check. -/
def applyDocs (op : SyncOperation) (docs : List (String × CRDTDocument)) :
    List (String × CRDTDocument) :=
  if op.operation_type = "create" then
    match dlookup docs op.document_id with
    | some _ => docs
    | none => dictSet docs op.document_id (newDoc op)
  else if op.operation_type = "update" then
    match dlookup docs op.document_id with
    | some doc =>
        if isOperationNewer op doc then dictSet docs op.document_id (updDoc op doc)
        else docs
    | none => docs
  else if op.operation_type = "delete" then
    match dlookup docs op.document_id with
    | some _ => dictRemove docs op.document_id
    | none => docs
  else docs

/-- `SyncEngine._apply_operation` (lines 454-498): first merge the
operation's clock into the global vector clock entry-wise by max
(unconditionally, before any document lookup or newness check), then apply
the operation to the document store. -/
def applyOperation (op : SyncOperation) (s : SyncEngineState) : SyncEngineState :=
  { s with
    vector_clock := vcMergeMax s.vector_clock op.vector_clock
    documents := applyDocs op s.documents }

/-- `SyncEngine._create_sync_operation` (lines 426-452): increment our own
global-clock entry, build the operation stamped with the new clock snapshot,
sign it (over the serialized operation with `signature` still `None`), apply
it locally, and return it for broadcast.  `sigf` is the signing primitive
(`SecurityManager.sign_data`) and `ser` the serialization
(`json.dumps(asdict(op)).encode()`), both abstract here. -/
def createSyncOperation (sigf : List Nat → List Nat)
    (ser : SyncOperation → List Nat) (operation_type : String) (data : OpData)
    (ts : Nat) (s : SyncEngineState) : SyncEngineState × SyncOperation :=
  let n := dlookup0 s.vector_clock s.device_id + 1
  let vc := dictSet s.vector_clock s.device_id n
  let op0 : SyncOperation :=
    { operation_id := s.device_id ++ "_" ++ toString n
      device_id := s.device_id
      document_id := data.ddocument_id.getD "unknown"
      operation_type := operation_type
      data := data
      timestamp := ts
      vector_clock := vc
      signature := none }
  let op : SyncOperation := { op0 with signature := some (sigf (ser op0)) }
  let s1 : SyncEngineState := { s with vector_clock := vc }
  (applyOperation op s1, op)

/-- A sequence of local writes, each through `_create_sync_operation`. -/
def localWrites (sigf : List Nat → List Nat) (ser : SyncOperation → List Nat) :
    List (String × OpData × Nat) → SyncEngineState → SyncEngineState
  | [], s => s
  | (opType, data, ts) :: rest, s =>
      localWrites sigf ser rest (createSyncOperation sigf ser opType data ts s).1

/-- `SyncEngine.add_device` (lines 295-323): records the discovered device
and initializes its global-clock entry to 0 when absent; never touches the
document store. -/
def addDevice (info : DeviceInfo) (s : SyncEngineState) : SyncEngineState :=
  if info.device_id = s.device_id then s
  else
    { s with
      connected_devices := dictSet s.connected_devices info.device_id info
      vector_clock :=
        if (dlookup s.vector_clock info.device_id).isSome then s.vector_clock
        else dictSet s.vector_clock info.device_id 0 }

/-- `security.py` `PermissionLevel` (enum, lines 37-43). -/
inductive PermissionLevel where
  | none
  | read
  | write
  | admin
deriving DecidableEq

/-- `check_permission`'s `level_hierarchy.index` (lines 455-463): the total
order none < read < write < admin as list indices. -/
def levelIdx : PermissionLevel → Nat
  | PermissionLevel.none => 0
  | PermissionLevel.read => 1
  | PermissionLevel.write => 2
  | PermissionLevel.admin => 3

/-- `security.py` `Permission` (dataclass, lines 61-73); timestamps are
advisory, embedded as `Nat`. -/
structure Permission where
  capability : String
  level : PermissionLevel
  granted_by : String
  granted_at : Nat
deriving DecidableEq

/-- `security.py` `TrustedDevice` (dataclass, lines 76-87); key material is
byte strings, embedded as `List Nat`. -/
structure TrustedDevice where
  device_id : String
  device_name : String
  device_type : String
  public_key : List Nat
  signing_public_key : List Nat
  permissions : List Permission
  trusted_at : Nat
  last_seen : Nat
  is_active : Bool
deriving DecidableEq

/-- The mutable state of `SecurityManager` the claims are about:
`self.trusted_devices`, `self.session_keys`, the fixed `self.device_id`,
and `stored_devices`, the contents of the persisted `trusted_devices.json`
(`none` when never written). -/
structure SecurityState where
  device_id : String
  trusted_devices : List (String × TrustedDevice)
  session_keys : List (String × List Nat)
  stored_devices : Option (List (String × TrustedDevice))
deriving DecidableEq

/-- `self.capabilities` (security.py lines 116-128): the known capability
names. -/
def capabilitiesList : List String :=
  ["mic", "camera", "location", "notifications", "schedule", "storage",
   "network", "smart_home", "contacts", "messages", "calls"]

/-- `SecurityManager._save_trusted_devices` (lines 254-289): writes the full
trusted-device set to storage; a storage I/O failure is caught INSIDE this
method, logged, and swallowed — the caller never sees it.  `saveOk` is the
storage outcome. -/
def saveTrustedDevices (saveOk : Bool) (s : SecurityState) : SecurityState :=
  if saveOk then { s with stored_devices := some s.trusted_devices } else s

/-- `SecurityManager.trust_device` (lines 317-362): register the device with
one `read`-level permission per listed KNOWN capability, create a session
key (`rnd` stands for `os.urandom(32)`), persist, return `True`.  The pure
body never raises, so the `except: return False` branch is unreachable. -/
def trustDevice (saveOk : Bool) (rnd : List Nat) (now : Nat)
    (device_id device_name device_type : String)
    (public_key signing_public_key : List Nat) (perms : List String)
    (s : SecurityState) : SecurityState × Bool :=
  let permObjs : List Permission :=
    (perms.filter (fun c => capabilitiesList.contains c)).map
      (fun c =>
        { capability := c
          level := PermissionLevel.read
          granted_by := s.device_id
          granted_at := now })
  let dev : TrustedDevice :=
    { device_id := device_id
      device_name := device_name
      device_type := device_type
      public_key := public_key
      signing_public_key := signing_public_key
      permissions := permObjs
      trusted_at := now
      last_seen := now
      is_active := true }
  let s1 : SecurityState :=
    { s with trusted_devices := dictSet s.trusted_devices device_id dev }
  let s2 : SecurityState :=
    { s1 with session_keys := dictSet s1.session_keys device_id rnd }
  (saveTrustedDevices saveOk s2, true)

/-- The error taxonomy the spec names for permission operations.  The Python
code never raises it; the result type below records whether a call returned
normally (`Except.ok`) or raised (`Except.error`). -/
inductive SecError where
  | unknownDeviceError
deriving DecidableEq

/-- The `for perm in device.permissions: ... break / else: append` loop of
`grant_permission` (lines 397-410): update the FIRST permission with the
given capability in place, or append a fresh one at the end. -/
def grantLoop (cap : String) (lvl : PermissionLevel) (gby : String) (now : Nat) :
    List Permission → List Permission
  | [] => [{ capability := cap, level := lvl, granted_by := gby, granted_at := now }]
  | p :: rest =>
      if p.capability = cap then { p with level := lvl, granted_at := now } :: rest
      else p :: grantLoop cap lvl gby now rest

/-- `SecurityManager.grant_permission` (lines 383-420): returns `ok false`
for an unknown device or capability (no exception is ever raised — the
`Except.error` constructor is never used), otherwise updates the first
matching permission or appends one, persists, and returns `ok true`. -/
def grantPermission (saveOk : Bool) (now : Nat) (device_id capability : String)
    (lvl : PermissionLevel) (s : SecurityState) :
    SecurityState × Except SecError Bool :=
  match dlookup s.trusted_devices device_id with
  | Option.none => (s, Except.ok false)
  | some dev =>
      if capabilitiesList.contains capability then
        let dev' : TrustedDevice :=
          { dev with
            permissions := grantLoop capability lvl s.device_id now dev.permissions }
        let s1 : SecurityState :=
          { s with trusted_devices := dictSet s.trusted_devices device_id dev' }
        (saveTrustedDevices saveOk s1, Except.ok true)
      else (s, Except.ok false)

/-- The `for permission in device.permissions` loop of `check_permission`
(lines 452-467): the FIRST permission with the given capability decides, via
the level hierarchy; no match means `False`. -/
def checkPerms : List Permission → String → PermissionLevel → Bool
  | [], _, _ => false
  | p :: rest, cap, req =>
      if p.capability = cap then decide (levelIdx req ≤ levelIdx p.level)
      else checkPerms rest cap req

/-- `SecurityManager.check_permission` (lines 443-467): `False` for an
untrusted device, else decided by the first matching permission. -/
def checkPermission (device_id capability : String) (required : PermissionLevel)
    (s : SecurityState) : Bool :=
  match dlookup s.trusted_devices device_id with
  | Option.none => false
  | some dev => checkPerms dev.permissions capability required

/-- `SecurityManager.verify_signature` (lines 531-547): `False` for a device
not in the trusted set; otherwise compare the signature against the mock
expectation `sha256(data + device.signing_public_key)`.  `hash` stands for
the hash primitive; `Option.none` (Python `None`) never equals `some _`. -/
def verifySignature (hash : List Nat → List Nat) (sec : SecurityState)
    (data : List Nat) (signature : Option (List Nat)) (device_id : String) : Bool :=
  match dlookup sec.trusted_devices device_id with
  | Option.none => false
  | some dev => decide (signature = some (hash (data ++ dev.signing_public_key)))

/-- The verify-then-apply skeleton of `SyncEngine._apply_sync_operation`
(lines 546-566) with serialization and hash abstract: apply only when
`verify_signature` succeeds; on failure log and return with the engine state
untouched.  Only its failure branch is exercised by the theorems below: in
the source the success branch is unreachable from this call site (see
`applySyncOperationFaithful`), and an idealized success branch can only make
preservation statements harder, never easier. -/
def applySyncOperation (hash : List Nat → List Nat)
    (ser : SyncOperation → List Nat) (sec : SecurityState) (op : SyncOperation)
    (s : SyncEngineState) : SyncEngineState :=
  if verifySignature hash sec (ser op) op.signature op.device_id then
    applyOperation op s
  else s

/-- `SyncEngine._apply_sync_operation` (lines 546-566) with CPython
serialization semantics made explicit.  The verification payload is
`json.dumps(asdict(operation)).encode()` (line 553), and `asdict` includes
the `signature` field itself.  The dataclass types `signature` as
`Optional[bytes]`: when it is `bytes` (`some _`), `json.dumps` raises
`TypeError` ("Object of type bytes is not JSON serializable"), the handler
at lines 564-566 drops the operation, and `_apply_operation` is never
reached; when it is `None`, serialization succeeds but
`verify_signature` compares `None == sha256(...)` (security.py line 543),
which is `False` in Python since the digest is `bytes`, and the operation is
dropped at line 558. -/
def applySyncOperationFaithful (hash : List Nat → List Nat)
    (ser : SyncOperation → List Nat) (sec : SecurityState) (op : SyncOperation)
    (s : SyncEngineState) : SyncEngineState :=
  match op.signature with
  | some _ => s
  | Option.none =>
      if verifySignature hash sec (ser op) Option.none op.device_id then
        applyOperation op s
      else s

/-! Concrete sample states used below to witness or refute the claims. -/

def c1exOp : SyncOperation :=
  { operation_id := "X_1", device_id := "X", document_id := "doc1",
    operation_type := "update",
    data := { dtype := some "note", dcontent := some [("x", "1")],
              ddocument_id := some "doc1" },
    timestamp := 3, vector_clock := [("X", 1)], signature := some [0] }

def c1exSec : SecurityState :=
  { device_id := "A", trusted_devices := [], session_keys := [],
    stored_devices := Option.none }

def c1exDoc : CRDTDocument :=
  { document_id := "doc1", document_type := "note", content := [("x", "0")],
    vector_clock := [("A", 1)], last_modified := 0, created_by := "A" }

def c1exState : SyncEngineState :=
  { device_id := "A", vector_clock := [("A", 1)],
    documents := [("doc1", c1exDoc)], connected_devices := [] }

def c2exDoc : CRDTDocument :=
  { document_id := "doc1", document_type := "note", content := [("x", "0")],
    vector_clock := [("A", 2)], last_modified := 0, created_by := "A" }

def c2exState : SyncEngineState :=
  { device_id := "B", vector_clock := [("A", 2)],
    documents := [("doc1", c2exDoc)], connected_devices := [] }

def c2exOp : SyncOperation :=
  { operation_id := "A_1", device_id := "A", document_id := "doc1",
    operation_type := "delete",
    data := { dtype := Option.none, dcontent := Option.none,
              ddocument_id := some "doc1" },
    timestamp := 1, vector_clock := [("A", 1)], signature := Option.none }

def c2wDoc : CRDTDocument :=
  { document_id := "doc2", document_type := "note", content := [("y", "2")],
    vector_clock := [("A", 3)], last_modified := 0, created_by := "A" }

def c2wState : SyncEngineState :=
  { device_id := "B", vector_clock := [("A", 3)],
    documents := [("doc2", c2wDoc)], connected_devices := [] }

def c2wOp : SyncOperation :=
  { operation_id := "A_2", device_id := "A", document_id := "doc2",
    operation_type := "update",
    data := { dtype := some "note", dcontent := some [("y", "9")],
              ddocument_id := some "doc2" },
    timestamp := 2, vector_clock := [("A", 2)], signature := Option.none }

def c3exDoc : CRDTDocument :=
  { document_id := "doc1", document_type := "note", content := [("x", "0")],
    vector_clock := [("A", 1), ("B", 1)], last_modified := 0, created_by := "A" }

def c3exState : SyncEngineState :=
  { device_id := "B", vector_clock := [("A", 1), ("B", 1)],
    documents := [("doc1", c3exDoc)], connected_devices := [] }

def c3exOp : SyncOperation :=
  { operation_id := "A_2", device_id := "A", document_id := "doc1",
    operation_type := "update",
    data := { dtype := some "note", dcontent := some [("x", "1")],
              ddocument_id := some "doc1" },
    timestamp := 2, vector_clock := [("A", 2)], signature := Option.none }

def c3wDoc : CRDTDocument :=
  { document_id := "doc3", document_type := "note", content := [("x", "0")],
    vector_clock := [("A", 1)], last_modified := 0, created_by := "A" }

def c3wState : SyncEngineState :=
  { device_id := "B", vector_clock := [("A", 1)],
    documents := [("doc3", c3wDoc)], connected_devices := [] }

def c3wOp : SyncOperation :=
  { operation_id := "A_2", device_id := "A", document_id := "doc3",
    operation_type := "update",
    data := { dtype := some "note", dcontent := some [("x", "1")],
              ddocument_id := some "doc3" },
    timestamp := 2, vector_clock := [("A", 2)], signature := Option.none }

def c4exDoc : CRDTDocument :=
  { document_id := "doc1", document_type := "note", content := [("x", "0")],
    vector_clock := [], last_modified := 0, created_by := "A" }

def c4exState : SyncEngineState :=
  { device_id := "C", vector_clock := [],
    documents := [("doc1", c4exDoc)], connected_devices := [] }

def c4exOpA : SyncOperation :=
  { operation_id := "A_1", device_id := "A", document_id := "doc1",
    operation_type := "update",
    data := { dtype := some "note", dcontent := some [("ax", "1")],
              ddocument_id := some "doc1" },
    timestamp := 1, vector_clock := [("A", 1)], signature := Option.none }

def c4exOpB : SyncOperation :=
  { operation_id := "B_1", device_id := "B", document_id := "doc1",
    operation_type := "update",
    data := { dtype := some "note", dcontent := some [("bx", "2")],
              ddocument_id := some "doc1" },
    timestamp := 2, vector_clock := [("B", 1)], signature := Option.none }

def c5exDoc : CRDTDocument :=
  { document_id := "doc1", document_type := "note", content := [("x", "0")],
    vector_clock := [], last_modified := 0, created_by := "A" }

def c5exState : SyncEngineState :=
  { device_id := "A", vector_clock := [("A", 0)],
    documents := [("doc1", c5exDoc)], connected_devices := [] }

def c5exOp : SyncOperation :=
  { operation_id := "A_1", device_id := "A", document_id := "doc1",
    operation_type := "update",
    data := { dtype := some "note", dcontent := some [("x", "1")],
              ddocument_id := some "doc1" },
    timestamp := 5, vector_clock := [("A", 1)], signature := Option.none }

def c6wState : SyncEngineState :=
  { device_id := "A", vector_clock := [("A", 0)],
    documents := [], connected_devices := [] }

def c6wData : OpData :=
  { dtype := some "note", dcontent := some [("x", "1")],
    ddocument_id := some "doc1" }

def c6wWrites : List (String × OpData × Nat) :=
  [("create", c6wData, 1), ("update", c6wData, 2)]

def c7exState0 : SecurityState :=
  { device_id := "A", trusted_devices := [], session_keys := [],
    stored_devices := Option.none }

def c7exState1 : SecurityState :=
  (trustDevice true [1] 0 "d" "dev" "mobile" [2] [3] ["mic", "mic"] c7exState0).1

def c7exState2 : SecurityState :=
  (grantPermission true 1 "d" "mic" PermissionLevel.none c7exState1).1

def c7wPerm : Permission :=
  { capability := "mic", level := PermissionLevel.read, granted_by := "A",
    granted_at := 0 }

def c7wDev : TrustedDevice :=
  { device_id := "d", device_name := "dev", device_type := "mobile",
    public_key := [2], signing_public_key := [3], permissions := [c7wPerm],
    trusted_at := 0, last_seen := 0, is_active := true }

def c7wState : SecurityState :=
  { device_id := "A", trusted_devices := [("d", c7wDev)], session_keys := [],
    stored_devices := Option.none }

def c8exState : SecurityState :=
  { device_id := "A", trusted_devices := [], session_keys := [],
    stored_devices := Option.none }

def c8wState : SecurityState :=
  { device_id := "A", trusted_devices := [], session_keys := [],
    stored_devices := Option.none }

def c9exState : SecurityState :=
  { device_id := "A", trusted_devices := [], session_keys := [],
    stored_devices := Option.none }

def c9wState : SecurityState :=
  { device_id := "A", trusted_devices := [], session_keys := [],
    stored_devices := Option.none }

/-! Association-list and vector-clock lemmas. -/

theorem dlookup_dictSet_self {α : Type} (c : List (String × α)) (k : String) (v : α) :
    dlookup (dictSet c k v) k = some v := by
  induction c with
  | nil => simp [dictSet, dlookup]
  | cons hd tl ih =>
      obtain ⟨k0, v0⟩ := hd
      by_cases h : k0 = k <;> simp [dictSet, dlookup, h, ih]

theorem dlookup_dictSet_ne {α : Type} (c : List (String × α)) {k k' : String} (v : α)
    (h : k' ≠ k) : dlookup (dictSet c k v) k' = dlookup c k' := by
  have hne : k ≠ k' := fun hh => h hh.symm
  induction c with
  | nil => simp [dictSet, dlookup, hne]
  | cons hd tl ih =>
      obtain ⟨k0, v0⟩ := hd
      by_cases h0 : k0 = k
      · subst h0
        simp [dictSet, dlookup, hne]
      · simp only [dictSet, if_neg h0, dlookup]
        by_cases h1 : k0 = k' <;> simp [h1, ih]

theorem dlookup_dictSet {α : Type} (c : List (String × α)) (k k' : String) (v : α) :
    dlookup (dictSet c k v) k' = if k' = k then some v else dlookup c k' := by
  by_cases h : k' = k
  · subst h
    simp [dlookup_dictSet_self]
  · simp [h, dlookup_dictSet_ne c v h]

theorem dictSet_lookup_self {α : Type} {c : List (String × α)} {k : String} {v : α}
    (h : dlookup c k = some v) : dictSet c k v = c := by
  induction c with
  | nil => simp [dlookup] at h
  | cons hd tl ih =>
      obtain ⟨k0, v0⟩ := hd
      by_cases h0 : k0 = k
      · simp only [dlookup, if_pos h0] at h
        cases h
        simp [dictSet, h0]
      · simp only [dlookup, if_neg h0] at h
        simp [dictSet, h0, ih h]

theorem keysOf_dictSet_of_mem {α : Type} {c : List (String × α)} {k : String}
    (v : α) (h : (dlookup c k).isSome) : keysOf (dictSet c k v) = keysOf c := by
  induction c with
  | nil => simp [dlookup] at h
  | cons hd tl ih =>
      obtain ⟨k0, v0⟩ := hd
      by_cases h0 : k0 = k
      · simp [dictSet, h0, keysOf]
      · simp only [dlookup, if_neg h0] at h
        simp only [dictSet, if_neg h0]
        show k0 :: keysOf (dictSet tl k v) = k0 :: keysOf tl
        rw [ih h]

theorem keysOf_dictSet_of_absent {α : Type} {c : List (String × α)} {k : String}
    (v : α) (h : dlookup c k = none) : keysOf (dictSet c k v) = keysOf c ++ [k] := by
  induction c with
  | nil => simp [dictSet, keysOf]
  | cons hd tl ih =>
      obtain ⟨k0, v0⟩ := hd
      by_cases h0 : k0 = k
      · simp [dlookup, h0] at h
      · simp only [dlookup, if_neg h0] at h
        simp only [dictSet, if_neg h0]
        show k0 :: keysOf (dictSet tl k v) = (k0 :: keysOf tl) ++ [k]
        rw [ih h]
        rfl

theorem dlookup_none_of_not_mem_keys {α : Type} {c : List (String × α)} {k : String}
    (h : k ∉ keysOf c) : dlookup c k = none := by
  induction c with
  | nil => rfl
  | cons hd tl ih =>
      obtain ⟨k0, v0⟩ := hd
      have h1 : k0 ≠ k := by
        intro he
        exact h (by simp [keysOf, he])
      have h2 : k ∉ keysOf tl := by
        intro he
        refine h ?_
        show k ∈ k0 :: keysOf tl
        exact List.mem_cons_of_mem _ he
      simp [dlookup, h1, ih h2]

theorem dlookup_isSome_of_mem_keys {α : Type} {c : List (String × α)} {k : String}
    (h : k ∈ keysOf c) : (dlookup c k).isSome := by
  induction c with
  | nil => simp [keysOf] at h
  | cons hd tl ih =>
      obtain ⟨k0, v0⟩ := hd
      by_cases h0 : k0 = k
      · simp [dlookup, h0]
      · have hm : k ∈ keysOf tl := by
          have hck : k ∈ k0 :: keysOf tl := h
          rcases List.mem_cons.mp hck with he | he
          · exact absurd he.symm h0
          · exact he
        simp [dlookup, h0]
        exact ih hm

theorem nodup_keys_dictSet {α : Type} {c : List (String × α)} {k : String} (v : α)
    (h : (keysOf c).Nodup) : (keysOf (dictSet c k v)).Nodup := by
  cases hl : dlookup c k with
  | none =>
      rw [keysOf_dictSet_of_absent v hl]
      refine List.Nodup.append h (List.nodup_singleton k) ?_
      intro a ha hb
      have hak : a = k := by simpa using hb
      subst hak
      have hs := dlookup_isSome_of_mem_keys ha
      rw [hl] at hs
      simp at hs
  | some w =>
      rw [keysOf_dictSet_of_mem v (by simp [hl])]
      exact h

theorem dlookup_of_nodup_mem {α : Type} {c : List (String × α)} {k : String} {v : α}
    (hn : (keysOf c).Nodup) (hm : (k, v) ∈ c) : dlookup c k = some v := by
  induction c with
  | nil => simp at hm
  | cons hd tl ih =>
      obtain ⟨k0, v0⟩ := hd
      have hcons : (k0 :: keysOf tl).Nodup := hn
      have hn' : (keysOf tl).Nodup := (List.nodup_cons.mp hcons).2
      have hk0 : k0 ∉ keysOf tl := (List.nodup_cons.mp hcons).1
      rcases List.mem_cons.mp hm with h | h
      · cases h
        simp [dlookup]
      · have hne : k0 ≠ k := by
          intro he
          subst he
          exact hk0 (by simpa [keysOf] using List.mem_map_of_mem Prod.fst h)
        simp [dlookup, hne, ih hn' h]

theorem le_entriesMax_of_mem {c : List (String × Nat)} {d : String} {t : Nat}
    (h : (d, t) ∈ c) : t ≤ entriesMax c d := by
  induction c with
  | nil => simp at h
  | cons hd tl ih =>
      obtain ⟨k, u⟩ := hd
      rcases List.mem_cons.mp h with he | he
      · cases he
        simp [entriesMax]
      · by_cases hk : k = d
        · simp [entriesMax, hk]
          exact Or.inr (ih he)
        · simp [entriesMax, hk]
          exact ih he

theorem entriesMax_eq_zero_of_not_mem {c : List (String × Nat)} {d : String}
    (h : d ∉ keysOf c) : entriesMax c d = 0 := by
  induction c with
  | nil => rfl
  | cons hd tl ih =>
      obtain ⟨k, u⟩ := hd
      have hk : k ≠ d := by
        intro he
        exact h (by simp [keysOf, he])
      have h2 : d ∉ keysOf tl := by
        intro he
        refine h ?_
        show d ∈ k :: keysOf tl
        exact List.mem_cons_of_mem _ he
      simp [entriesMax, hk, ih h2]

theorem entriesMax_eq_dlookup0_of_nodup {c : List (String × Nat)} {d : String}
    (hn : (keysOf c).Nodup) : entriesMax c d = dlookup0 c d := by
  induction c with
  | nil => rfl
  | cons hd tl ih =>
      obtain ⟨k, u⟩ := hd
      have hcons : (k :: keysOf tl).Nodup := hn
      have hn' : (keysOf tl).Nodup := (List.nodup_cons.mp hcons).2
      have hk0 : k ∉ keysOf tl := (List.nodup_cons.mp hcons).1
      by_cases hk : k = d
      · subst hk
        have hz : entriesMax tl k = 0 := entriesMax_eq_zero_of_not_mem hk0
        simp [entriesMax, dlookup0, dlookup, hz]
      · simp [entriesMax, hk, dlookup0, dlookup, ih hn']

/-- The merged clock has, at every key, the max of the old value and the
largest entry for that key in the merged-in clock. -/
theorem dlookup0_vcMergeMax (c : List (String × Nat)) (g : List (String × Nat))
    (d : String) :
    dlookup0 (vcMergeMax g c) d = max (dlookup0 g d) (entriesMax c d) := by
  induction c generalizing g with
  | nil => simp [vcMergeMax, entriesMax]
  | cons hd tl ih =>
      obtain ⟨k, t⟩ := hd
      show dlookup0 (vcMergeMax (dictSet g k (max (dlookup0 g k) t)) tl) d = _
      rw [ih]
      by_cases hk : k = d
      · subst hk
        have hset : dlookup0 (dictSet g k (max (dlookup0 g k) t)) k
            = max (dlookup0 g k) t := by
          simp [dlookup0, dlookup_dictSet_self]
        rw [hset]
        simp [entriesMax]
        omega
      · have hset : dlookup0 (dictSet g k (max (dlookup0 g k) t)) d
            = dlookup0 g d := by
          simp [dlookup0, dlookup_dictSet_ne g _ (fun he => hk he.symm)]
        rw [hset]
        simp [entriesMax, hk]

theorem dlookup0_le_vcMergeMax (g c : List (String × Nat)) (d : String) :
    dlookup0 g d ≤ dlookup0 (vcMergeMax g c) d := by
  rw [dlookup0_vcMergeMax]
  exact le_max_left _ _

theorem dlookup_vcMergeMax_isSome_left {g : List (String × Nat)}
    (c : List (String × Nat)) {d : String} (h : (dlookup g d).isSome) :
    (dlookup (vcMergeMax g c) d).isSome := by
  induction c generalizing g with
  | nil => exact h
  | cons hd tl ih =>
      obtain ⟨k, t⟩ := hd
      show (dlookup (vcMergeMax (dictSet g k (max (dlookup0 g k) t)) tl) d).isSome
      refine ih ?_
      by_cases hk : k = d
      · subst hk
        simp [dlookup_dictSet_self]
      · rw [dlookup_dictSet_ne g _ (fun he => hk he.symm)]
        exact h

theorem dlookup_vcMergeMax_isSome_of_mem {g c : List (String × Nat)} {d : String}
    (h : d ∈ keysOf c) : (dlookup (vcMergeMax g c) d).isSome := by
  induction c generalizing g with
  | nil => simp [keysOf] at h
  | cons hd tl ih =>
      obtain ⟨k, t⟩ := hd
      show (dlookup (vcMergeMax (dictSet g k (max (dlookup0 g k) t)) tl) d).isSome
      by_cases hk : k = d
      · subst hk
        exact dlookup_vcMergeMax_isSome_left tl (by simp [dlookup_dictSet_self])
      · have hm : d ∈ keysOf tl := by
          have hck : d ∈ k :: keysOf tl := h
          rcases List.mem_cons.mp hck with he | he
          · exact absurd he.symm hk
          · exact he
        exact ih hm

theorem vcMergeMax_eq_self_of_ge {c : List (String × Nat)} :
    ∀ acc : List (String × Nat),
      (∀ d t, (d, t) ∈ c → t ≤ dlookup0 acc d ∧ (dlookup acc d).isSome) →
      vcMergeMax acc c = acc := by
  induction c with
  | nil =>
      intro acc _
      rfl
  | cons hd tl ih =>
      intro acc hcond
      obtain ⟨k, t⟩ := hd
      have hk := hcond k t (List.mem_cons_self _ _)
      have hmax : max (dlookup0 acc k) t = dlookup0 acc k := by omega
      show vcMergeMax (dictSet acc k (max (dlookup0 acc k) t)) tl = acc
      rw [hmax]
      have hsome : dlookup acc k = some (dlookup0 acc k) := by
        rcases Option.isSome_iff_exists.mp hk.2 with ⟨w, hw⟩
        simp [dlookup0, hw]
      rw [dictSet_lookup_self hsome]
      exact ih acc (fun d u hm => hcond d u (List.mem_cons_of_mem _ hm))

/-- Re-merging the same clock is a (structural) no-op: merging is idempotent. -/
theorem vcMergeMax_idem (g c : List (String × Nat)) :
    vcMergeMax (vcMergeMax g c) c = vcMergeMax g c := by
  refine vcMergeMax_eq_self_of_ge (vcMergeMax g c) ?_
  intro d t hm
  constructor
  · rw [dlookup0_vcMergeMax]
    exact le_trans (le_entriesMax_of_mem hm) (le_max_right _ _)
  · exact dlookup_vcMergeMax_isSome_of_mem
      (by simpa [keysOf] using List.mem_map_of_mem Prod.fst hm)

theorem nodup_keys_vcMergeMax {g : List (String × Nat)}
    (c : List (String × Nat)) (h : (keysOf g).Nodup) :
    (keysOf (vcMergeMax g c)).Nodup := by
  induction c generalizing g with
  | nil => exact h
  | cons hd tl ih =>
      obtain ⟨k, t⟩ := hd
      exact ih (nodup_keys_dictSet _ h)

theorem dlookup_dictUpdate {α : Type} (p : List (String × α)) :
    ∀ (c : List (String × α)) (k : String),
      dlookup (dictUpdate c p) k =
        match lastVal p k with
        | some v => some v
        | none => dlookup c k := by
  induction p with
  | nil =>
      intro c k
      simp [dictUpdate, lastVal]
  | cons hd tl ih =>
      intro c k
      obtain ⟨k0, v0⟩ := hd
      show dlookup (dictUpdate (dictSet c k0 v0) tl) k = _
      rw [ih]
      show _ = (match (match lastVal tl k with
                 | some v => some v
                 | none => if k0 = k then some v0 else none) with
                | some v => some v
                | none => dlookup c k)
      cases hlv : lastVal tl k with
      | some v => rfl
      | none =>
          by_cases hk : k0 = k
          · subst hk
            simp [dlookup_dictSet_self]
          · simp [hk, dlookup_dictSet_ne c v0 (fun he => hk he.symm)]

theorem lastVal_isSome_of_mem_keys {α : Type} {p : List (String × α)} {k : String}
    (h : k ∈ keysOf p) : (lastVal p k).isSome := by
  induction p with
  | nil => simp [keysOf] at h
  | cons hd tl ih =>
      obtain ⟨k0, v0⟩ := hd
      show (match lastVal tl k with
            | some v => some v
            | none => if k0 = k then some v0 else none).isSome
      cases hlv : lastVal tl k with
      | some v => simp
      | none =>
          have hck : k ∈ k0 :: keysOf tl := h
          rcases List.mem_cons.mp hck with he | he
          · simp [he.symm]
          · have hs := ih he
            rw [hlv] at hs
            simp at hs

theorem lastVal_none_of_not_mem_keys {α : Type} {p : List (String × α)} {k : String}
    (h : k ∉ keysOf p) : lastVal p k = none := by
  induction p with
  | nil => rfl
  | cons hd tl ih =>
      obtain ⟨k0, v0⟩ := hd
      have h1 : k0 ≠ k := by
        intro he
        exact h (by simp [keysOf, he])
      have h2 : k ∉ keysOf tl := by
        intro he
        refine h ?_
        show k ∈ k0 :: keysOf tl
        exact List.mem_cons_of_mem _ he
      show (match lastVal tl k with
            | some v => some v
            | none => if k0 = k then some v0 else none) = none
      rw [ih h2]
      simp [h1]

/-- Applying two Python `dict.update`s with key-disjoint argument dicts
commutes, up to lookup. -/
theorem dlookup_dictUpdate_comm {α : Type} {pa pb : List (String × α)}
    (hdisj : ∀ x, x ∈ keysOf pa → x ∉ keysOf pb) (c : List (String × α))
    (k : String) :
    dlookup (dictUpdate (dictUpdate c pa) pb) k
      = dlookup (dictUpdate (dictUpdate c pb) pa) k := by
  rw [dlookup_dictUpdate, dlookup_dictUpdate, dlookup_dictUpdate, dlookup_dictUpdate]
  by_cases ha : k ∈ keysOf pa
  · have hb : k ∉ keysOf pb := hdisj k ha
    rw [lastVal_none_of_not_mem_keys hb]
  · rw [lastVal_none_of_not_mem_keys ha]

theorem dlookup0_dictSet (c : List (String × Nat)) (k k' : String) (v : Nat) :
    dlookup0 (dictSet c k v) k' = if k' = k then v else dlookup0 c k' := by
  rw [dlookup0, dlookup_dictSet]
  by_cases h : k' = k <;> simp [h, dlookup0]

theorem dlookup_dictRemove_self {α : Type} {c : List (String × α)} {k : String}
    (hn : (keysOf c).Nodup) : dlookup (dictRemove c k) k = none := by
  induction c with
  | nil => rfl
  | cons hd tl ih =>
      obtain ⟨k0, v0⟩ := hd
      have hcons : (k0 :: keysOf tl).Nodup := hn
      have hn' : (keysOf tl).Nodup := (List.nodup_cons.mp hcons).2
      have hk0 : k0 ∉ keysOf tl := (List.nodup_cons.mp hcons).1
      by_cases h0 : k0 = k
      · subst h0
        simp only [dictRemove, if_pos rfl]
        exact dlookup_none_of_not_mem_keys hk0
      · simp [dictRemove, h0, dlookup, ih hn']

/-- Characterization of the `_is_operation_newer` loop: it returns `True`
iff no entry of the operation's clock is strictly below the document's and
(the flag was already set or) some entry is strictly above. -/
theorem newerLoop_eq_true_iff (dc : List (String × Nat)) :
    ∀ (l : List (String × Nat)) (acc : Bool),
      (newerLoop dc l acc = true ↔
        ((∀ p ∈ l, dlookup0 dc p.1 ≤ p.2) ∧
         (acc = true ∨ ∃ p ∈ l, dlookup0 dc p.1 < p.2))) := by
  intro l
  induction l with
  | nil =>
      intro acc
      simp [newerLoop]
  | cons hd tl ih =>
      intro acc
      obtain ⟨d, t⟩ := hd
      by_cases h1 : dlookup0 dc d < t
      · rw [show newerLoop dc ((d, t) :: tl) acc = newerLoop dc tl true from by
          simp [newerLoop, h1]]
        rw [ih]
        simp [h1, le_of_lt h1]
      · by_cases h2 : t < dlookup0 dc d
        · rw [show newerLoop dc ((d, t) :: tl) acc = false from by
            simp [newerLoop, h1, h2]]
          have hne : ¬dlookup0 dc d ≤ t := not_le.mpr h2
          simp [hne]
        · have he : dlookup0 dc d = t := by omega
          rw [show newerLoop dc ((d, t) :: tl) acc = newerLoop dc tl acc from by
            simp [newerLoop, h1, h2]]
          rw [ih]
          simp [he, h1]

theorem isOperationNewer_le {op : SyncOperation} {doc : CRDTDocument}
    (h : isOperationNewer op doc = true) :
    ∀ d t, (d, t) ∈ op.vector_clock → dlookup0 doc.vector_clock d ≤ t := by
  intro d t hm
  have hc := (newerLoop_eq_true_iff doc.vector_clock op.vector_clock false).mp h
  exact hc.1 (d, t) hm

/-- An operation is never newer than a document whose clock it just wrote:
replay of an applied update is rejected. -/
theorem isOperationNewer_updDoc_self (op : SyncOperation) (doc : CRDTDocument)
    (hn : (keysOf op.vector_clock).Nodup) :
    isOperationNewer op (updDoc op doc) = false := by
  by_contra hne
  have ht : isOperationNewer op (updDoc op doc) = true := by
    cases hb : isOperationNewer op (updDoc op doc)
    · exact absurd hb hne
    · rfl
  have hc := (newerLoop_eq_true_iff op.vector_clock op.vector_clock false).mp ht
  rcases hc.2 with hfalse | ⟨p, hmem, hlt⟩
  · exact absurd hfalse (by simp)
  · obtain ⟨d, t⟩ := p
    have hl : dlookup op.vector_clock d = some t := dlookup_of_nodup_mem hn hmem
    simp [dlookup0, hl] at hlt

/-! The claims. -/

/-- Claim C1: an incoming operation whose signature does not verify against
the origin device's trusted signing key — in particular any operation whose
origin `device_id` is not in the trusted-device set — leaves the engine
state (document store included) entirely unchanged when processed via
`_apply_sync_operation`, for every payload and clock. -/
theorem c1_authentication_gate (hash : List Nat → List Nat)
    (ser : SyncOperation → List Nat) (sec : SecurityState) (op : SyncOperation)
    (s : SyncEngineState) :
    (verifySignature hash sec (ser op) op.signature op.device_id = false →
      applySyncOperation hash ser sec op s = s) ∧
    (dlookup sec.trusted_devices op.device_id = Option.none →
      verifySignature hash sec (ser op) op.signature op.device_id = false ∧
      applySyncOperation hash ser sec op s = s) := by
  constructor
  · intro hv
    simp [applySyncOperation, hv]
  · intro hu
    have hv : verifySignature hash sec (ser op) op.signature op.device_id = false := by
      simp [verifySignature, hu]
    exact ⟨hv, by simp [applySyncOperation, hv]⟩

theorem c1_authentication_gate_witness :
    dlookup c1exSec.trusted_devices c1exOp.device_id = Option.none ∧
    (verifySignature (fun l => l) c1exSec [] c1exOp.signature c1exOp.device_id = false ∧
     applySyncOperation (fun l => l) (fun _ => []) c1exSec c1exOp c1exState = c1exState) :=
  ⟨rfl, (c1_authentication_gate (fun l => l) (fun _ => []) c1exSec c1exOp c1exState).2 rfl⟩

/-- Claim C2 counterexample: a `delete` operation whose vector clock
`{A: 1}` is strictly dominated by the document's clock `{A: 2}` (the
newness check returns `False`) nevertheless removes the document:
`_apply_operation` runs the delete branch with no clock check at all. -/
theorem c2_causality_rejection_counterexample :
    dlookup c2exState.documents c2exOp.document_id = some c2exDoc ∧
    isOperationNewer c2exOp c2exDoc = false ∧
    dlookup (applyOperation c2exOp c2exState).documents c2exOp.document_id
      = Option.none :=
  ⟨rfl, rfl, rfl⟩

/-- Claim C2 (amended): for `create` and `update` operations, an operation
that is not newer than an existing target document leaves that document
(content and vector clock) unchanged; a `delete` operation, however, removes
the document unconditionally, regardless of its clock. -/
theorem c2_causality_rejection_create_update (s : SyncEngineState)
    (op : SyncOperation) (doc : CRDTDocument)
    (hdoc : dlookup s.documents op.document_id = some doc)
    (hnotnew : isOperationNewer op doc = false) :
    ((op.operation_type = "create" ∨ op.operation_type = "update") →
      dlookup (applyOperation op s).documents op.document_id = some doc) ∧
    (op.operation_type = "delete" → (keysOf s.documents).Nodup →
      dlookup (applyOperation op s).documents op.document_id = Option.none) := by
  constructor
  · rintro (hc | hu)
    · simp [applyOperation, applyDocs, hc, hdoc]
    · simp [applyOperation, applyDocs, hu, hdoc, hnotnew]
  · intro hd hn
    simp [applyOperation, applyDocs, hd, hdoc, dlookup_dictRemove_self hn]

theorem c2_causality_rejection_create_update_witness :
    dlookup c2wState.documents c2wOp.document_id = some c2wDoc ∧
    isOperationNewer c2wOp c2wDoc = false ∧
    dlookup (applyOperation c2wOp c2wState).documents c2wOp.document_id
      = some c2wDoc :=
  ⟨rfl, rfl,
    (c2_causality_rejection_create_update c2wState c2wOp c2wDoc rfl rfl).1
      (Or.inr rfl)⟩

/-- Claim C3 counterexample: the document has clock `{A:1, B:1}`; an
applied update with clock `{A:2}` REPLACES the document clock
(`doc.vector_clock = operation.vector_clock.copy()`), so the entry for `B`
drops from 1 to 0 — the document clock is not pointwise ≥ its prior value. -/
theorem c3_clock_invariant_counterexample :
    isOperationNewer c3exOp c3exDoc = true ∧
    ((dlookup c3exState.documents "doc1").map
        (fun d => dlookup0 d.vector_clock "B")) = some 1 ∧
    ((dlookup (applyOperation c3exOp c3exState).documents "doc1").map
        (fun d => dlookup0 d.vector_clock "B")) = some 0 :=
  ⟨rfl, rfl, rfl⟩

/-- Claim C3 (amended): after `_apply_operation` (an `update`) on an
existing document, if the operation was applied its new vector clock is the
operation's clock, which is ≥ the prior clock and ≥ the operation's entry at
every device PRESENT in the operation's clock; devices absent from the
operation's clock are dropped (their entries effectively reset to 0).  A
rejected operation leaves the document unchanged. -/
theorem c3_clock_update_on_existing (s : SyncEngineState) (op : SyncOperation)
    (doc : CRDTDocument)
    (hdoc : dlookup s.documents op.document_id = some doc)
    (hu : op.operation_type = "update") :
    (isOperationNewer op doc = true →
      dlookup (applyOperation op s).documents op.document_id
        = some (updDoc op doc) ∧
      (updDoc op doc).vector_clock = op.vector_clock ∧
      (∀ d t, (d, t) ∈ op.vector_clock → dlookup0 doc.vector_clock d ≤ t)) ∧
    (isOperationNewer op doc = false →
      dlookup (applyOperation op s).documents op.document_id = some doc) := by
  constructor
  · intro hnew
    refine ⟨?_, rfl, isOperationNewer_le hnew⟩
    simp [applyOperation, applyDocs, hu, hdoc, hnew, dlookup_dictSet_self]
  · intro hnotnew
    simp [applyOperation, applyDocs, hu, hdoc, hnotnew]

theorem c3_clock_update_on_existing_witness :
    dlookup c3wState.documents c3wOp.document_id = some c3wDoc ∧
    c3wOp.operation_type = "update" ∧
    isOperationNewer c3wOp c3wDoc = true ∧
    dlookup (applyOperation c3wOp c3wState).documents c3wOp.document_id
      = some (updDoc c3wOp c3wDoc) :=
  ⟨rfl, rfl, rfl,
    ((c3_clock_update_on_existing c3wState c3wOp c3wDoc rfl rfl).1 rfl).1⟩

/-- Claim C4 counterexample: the two updates are non-conflicting in every
sense available to the code — they come from distinct devices, touch
disjoint content keys, and each passes the newness check in whichever order
the two are applied — yet the final vector clocks differ: the document's
clock is always the clock of whichever operation was applied second
(entry `A` ends at 0 in one order and 1 in the other). -/
theorem c4_convergence_counterexample :
    isOperationNewer c4exOpA c4exDoc = true ∧
    isOperationNewer c4exOpB c4exDoc = true ∧
    isOperationNewer c4exOpB (updDoc c4exOpA c4exDoc) = true ∧
    isOperationNewer c4exOpA (updDoc c4exOpB c4exDoc) = true ∧
    ((dlookup (applyOperation c4exOpB (applyOperation c4exOpA c4exState)).documents
        "doc1").map (fun d => dlookup0 d.vector_clock "A")) = some 0 ∧
    ((dlookup (applyOperation c4exOpA (applyOperation c4exOpB c4exState)).documents
        "doc1").map (fun d => dlookup0 d.vector_clock "A")) = some 1 :=
  ⟨rfl, rfl, rfl, rfl, rfl, rfl⟩

/-- Claim C4 (amended): for two `update` operations on the same existing
document that each pass the newness check in whichever order they are
applied and whose payloads touch disjoint content keys, applying them in
either order yields the same final content (up to dict lookup); the final
vector clock, however, is simply the clock of the operation applied second,
so the two orders need not agree on it. -/
theorem c4_convergence_content (s : SyncEngineState) (a b : SyncOperation)
    (doc : CRDTDocument) (did : String)
    (haid : a.document_id = did) (hbid : b.document_id = did)
    (hat : a.operation_type = "update") (hbt : b.operation_type = "update")
    (hdoc : dlookup s.documents did = some doc)
    (hna : isOperationNewer a doc = true)
    (hnb : isOperationNewer b doc = true)
    (hnab : isOperationNewer b (updDoc a doc) = true)
    (hnba : isOperationNewer a (updDoc b doc) = true)
    (hdisj : ∀ x, x ∈ keysOf (a.data.dcontent.getD []) →
       x ∉ keysOf (b.data.dcontent.getD [])) :
    ∃ dab dba,
      dlookup (applyOperation b (applyOperation a s)).documents did = some dab ∧
      dlookup (applyOperation a (applyOperation b s)).documents did = some dba ∧
      (∀ k, dlookup dab.content k = dlookup dba.content k) ∧
      dab.vector_clock = b.vector_clock ∧
      dba.vector_clock = a.vector_clock := by
  have hA : (applyOperation a s).documents = dictSet s.documents did (updDoc a doc) := by
    show applyDocs a s.documents = _
    rw [← haid] at hdoc ⊢
    simp [applyDocs, hat, hdoc, hna]
  have hB : (applyOperation b s).documents = dictSet s.documents did (updDoc b doc) := by
    show applyDocs b s.documents = _
    rw [← hbid] at hdoc ⊢
    simp [applyDocs, hbt, hdoc, hnb]
  have hAB : (applyOperation b (applyOperation a s)).documents
      = dictSet (dictSet s.documents did (updDoc a doc)) did
          (updDoc b (updDoc a doc)) := by
    show applyDocs b (applyOperation a s).documents = _
    rw [hA]
    have hx : dlookup (dictSet s.documents did (updDoc a doc)) did
        = some (updDoc a doc) := dlookup_dictSet_self _ _ _
    simp [applyDocs, hbt, hbid, hx, hnab]
  have hBA : (applyOperation a (applyOperation b s)).documents
      = dictSet (dictSet s.documents did (updDoc b doc)) did
          (updDoc a (updDoc b doc)) := by
    show applyDocs a (applyOperation b s).documents = _
    rw [hB]
    have hx : dlookup (dictSet s.documents did (updDoc b doc)) did
        = some (updDoc b doc) := dlookup_dictSet_self _ _ _
    simp [applyDocs, hat, haid, hx, hnba]
  refine ⟨updDoc b (updDoc a doc), updDoc a (updDoc b doc), ?_, ?_, ?_, rfl, rfl⟩
  · rw [hAB]
    exact dlookup_dictSet_self _ _ _
  · rw [hBA]
    exact dlookup_dictSet_self _ _ _
  · intro k
    show dlookup (dictUpdate (dictUpdate doc.content (a.data.dcontent.getD []))
            (b.data.dcontent.getD [])) k
        = dlookup (dictUpdate (dictUpdate doc.content (b.data.dcontent.getD []))
            (a.data.dcontent.getD [])) k
    exact dlookup_dictUpdate_comm hdisj doc.content k

theorem c4_convergence_content_witness :
    ∃ dab dba,
      dlookup (applyOperation c4exOpB (applyOperation c4exOpA c4exState)).documents
        "doc1" = some dab ∧
      dlookup (applyOperation c4exOpA (applyOperation c4exOpB c4exState)).documents
        "doc1" = some dba ∧
      (∀ k, dlookup dab.content k = dlookup dba.content k) ∧
      dab.vector_clock = c4exOpB.vector_clock ∧
      dba.vector_clock = c4exOpA.vector_clock :=
  c4_convergence_content c4exState c4exOpA c4exOpB c4exDoc "doc1"
    rfl rfl rfl rfl rfl rfl rfl rfl rfl (by decide)

/-- The document-store part of `_apply_operation` is idempotent: replaying
an operation right after applying it changes nothing further. -/
theorem applyDocs_idem (op : SyncOperation) (docs : List (String × CRDTDocument))
    (hop : (keysOf op.vector_clock).Nodup) (hdocs : (keysOf docs).Nodup) :
    applyDocs op (applyDocs op docs) = applyDocs op docs := by
  by_cases hc : op.operation_type = "create"
  · cases hl : dlookup docs op.document_id with
    | some doc => simp [applyDocs, hc, hl]
    | none => simp [applyDocs, hc, hl, dlookup_dictSet_self]
  · by_cases hu : op.operation_type = "update"
    · cases hl : dlookup docs op.document_id with
      | some doc =>
          by_cases hnew : isOperationNewer op doc = true
          · have hrepl : isOperationNewer op (updDoc op doc) = false :=
              isOperationNewer_updDoc_self op doc hop
            simp [applyDocs, hc, hu, hl, hnew, dlookup_dictSet_self, hrepl]
          · have hf : isOperationNewer op doc = false := by
              cases hb : isOperationNewer op doc
              · rfl
              · exact absurd hb hnew
            simp [applyDocs, hc, hu, hl, hf]
      | none => simp [applyDocs, hc, hu, hl]
    · by_cases hd : op.operation_type = "delete"
      · cases hl : dlookup docs op.document_id with
        | some doc =>
            simp [applyDocs, hc, hu, hd, hl, dlookup_dictRemove_self hdocs]
        | none => simp [applyDocs, hc, hu, hd, hl]
      · simp [applyDocs, hc, hu, hd]

/-- Claim C5: applying the same `SyncOperation` twice in succession yields
exactly the same engine state (document contents, document vector clocks,
and global clock) as applying it once — replay is idempotent.  The `Nodup`
hypotheses state that the operation's clock and the document store are
honest Python dicts (no duplicate keys). -/
theorem c5_idempotent_replay (op : SyncOperation) (s : SyncEngineState)
    (hop : (keysOf op.vector_clock).Nodup)
    (hdocs : (keysOf s.documents).Nodup) :
    applyOperation op (applyOperation op s) = applyOperation op s := by
  show ({ s with
      vector_clock := vcMergeMax (vcMergeMax s.vector_clock op.vector_clock)
        op.vector_clock
      documents := applyDocs op (applyDocs op s.documents) } : SyncEngineState) = _
  rw [vcMergeMax_idem, applyDocs_idem op s.documents hop hdocs]
  rfl

theorem c5_idempotent_replay_witness :
    (keysOf c5exOp.vector_clock).Nodup ∧
    (keysOf c5exState.documents).Nodup ∧
    applyOperation c5exOp (applyOperation c5exOp c5exState)
      = applyOperation c5exOp c5exState :=
  ⟨by decide, by decide,
    c5_idempotent_replay c5exOp c5exState (by decide) (by decide)⟩

theorem createSyncOperation_clock (sigf : List Nat → List Nat)
    (ser : SyncOperation → List Nat) (opType : String) (data : OpData) (ts : Nat)
    (s : SyncEngineState) (hn : (keysOf s.vector_clock).Nodup) (d : String) :
    dlookup0 ((createSyncOperation sigf ser opType data ts s).1).vector_clock d
      = dlookup0 (dictSet s.vector_clock s.device_id
          (dlookup0 s.vector_clock s.device_id + 1)) d := by
  show dlookup0 (vcMergeMax
      (dictSet s.vector_clock s.device_id (dlookup0 s.vector_clock s.device_id + 1))
      (dictSet s.vector_clock s.device_id (dlookup0 s.vector_clock s.device_id + 1)))
      d = _
  rw [dlookup0_vcMergeMax,
    entriesMax_eq_dlookup0_of_nodup (nodup_keys_dictSet _ hn)]
  omega

theorem createSyncOperation_self_inc (sigf : List Nat → List Nat)
    (ser : SyncOperation → List Nat) (opType : String) (data : OpData) (ts : Nat)
    (s : SyncEngineState) (hn : (keysOf s.vector_clock).Nodup) :
    dlookup0 ((createSyncOperation sigf ser opType data ts s).1).vector_clock
        s.device_id
      = dlookup0 s.vector_clock s.device_id + 1 := by
  rw [createSyncOperation_clock sigf ser opType data ts s hn, dlookup0_dictSet]
  simp

theorem createSyncOperation_device_id (sigf : List Nat → List Nat)
    (ser : SyncOperation → List Nat) (opType : String) (data : OpData) (ts : Nat)
    (s : SyncEngineState) :
    ((createSyncOperation sigf ser opType data ts s).1).device_id = s.device_id :=
  rfl

theorem createSyncOperation_nodup (sigf : List Nat → List Nat)
    (ser : SyncOperation → List Nat) (opType : String) (data : OpData) (ts : Nat)
    (s : SyncEngineState) (hn : (keysOf s.vector_clock).Nodup) :
    (keysOf ((createSyncOperation sigf ser opType data ts s).1).vector_clock).Nodup := by
  show (keysOf (vcMergeMax
      (dictSet s.vector_clock s.device_id (dlookup0 s.vector_clock s.device_id + 1))
      (dictSet s.vector_clock s.device_id (dlookup0 s.vector_clock s.device_id + 1)))).Nodup
  exact nodup_keys_vcMergeMax _ (nodup_keys_dictSet _ hn)

theorem localWrites_self_clock (sigf : List Nat → List Nat)
    (ser : SyncOperation → List Nat) (writes : List (String × OpData × Nat)) :
    ∀ s : SyncEngineState, (keysOf s.vector_clock).Nodup →
      dlookup0 (localWrites sigf ser writes s).vector_clock s.device_id
        = dlookup0 s.vector_clock s.device_id + writes.length := by
  induction writes with
  | nil =>
      intro s _
      simp [localWrites]
  | cons w rest ih =>
      intro s hn
      obtain ⟨opType, data, ts⟩ := w
      show dlookup0 (localWrites sigf ser rest
          (createSyncOperation sigf ser opType data ts s).1).vector_clock s.device_id = _
      have hdev : ((createSyncOperation sigf ser opType data ts s).1).device_id
          = s.device_id := rfl
      have hrec := ih (createSyncOperation sigf ser opType data ts s).1
        (createSyncOperation_nodup sigf ser opType data ts s hn)
      rw [hdev] at hrec
      rw [hrec, createSyncOperation_self_inc sigf ser opType data ts s hn]
      simp [List.length_cons]
      omega

theorem verifySignature_none_false (hash : List Nat → List Nat)
    (sec : SecurityState) (data : List Nat) (device_id : String) :
    verifySignature hash sec data Option.none device_id = false := by
  unfold verifySignature
  cases dlookup sec.trusted_devices device_id <;> simp

/-- The remote path never mutates: from its only call site
(`_handle_sync_delta` → `_apply_sync_operation`), verification can never
succeed — a `bytes` signature makes `json.dumps(asdict(op))` raise
`TypeError` before verification, and a `None` signature never equals the
`bytes` sha256 digest — so `_apply_operation` is unreachable from
`_apply_sync_operation` and the engine state is returned untouched. -/
theorem applySyncOperationFaithful_no_mutation (hash : List Nat → List Nat)
    (ser : SyncOperation → List Nat) (sec : SecurityState) (op : SyncOperation)
    (s : SyncEngineState) :
    applySyncOperationFaithful hash ser sec op s = s := by
  unfold applySyncOperationFaithful
  cases hsig : op.signature with
  | none => simp [verifySignature_none_false]
  | some b => rfl

/-- Claim C6: a sequence of N local writes through `_create_sync_operation`
increases the engine's own global-clock entry by exactly N, and each single
write increments it by exactly 1.  Local-write creation is indeed the only
path that increments the local clock coordinate: `_apply_operation` has
exactly two callers, `_create_sync_operation` (the local-write path, +1 per
write) and `_apply_sync_operation`, and the latter can never reach it — a
`bytes` signature aborts serialization with `TypeError` and a `None`
signature never verifies, so the faithful remote path returns the state
untouched — while `add_device`, the only other writer of
`self.vector_clock`, never changes the engine's own entry. -/
theorem c6_monotonic_self_clock (sigf : List Nat → List Nat)
    (ser : SyncOperation → List Nat) (s : SyncEngineState)
    (writes : List (String × OpData × Nat))
    (hn : (keysOf s.vector_clock).Nodup) :
    dlookup0 (localWrites sigf ser writes s).vector_clock s.device_id
      = dlookup0 s.vector_clock s.device_id + writes.length ∧
    (∀ opType data ts,
      dlookup0 ((createSyncOperation sigf ser opType data ts s).1).vector_clock
          s.device_id
        = dlookup0 s.vector_clock s.device_id + 1) ∧
    (∀ (hash : List Nat → List Nat) (ser2 : SyncOperation → List Nat)
        (sec : SecurityState) (op : SyncOperation),
      applySyncOperationFaithful hash ser2 sec op s = s) ∧
    (∀ info : DeviceInfo,
      dlookup0 (addDevice info s).vector_clock s.device_id
        = dlookup0 s.vector_clock s.device_id) := by
  refine ⟨localWrites_self_clock sigf ser writes s hn,
    fun opType data ts => createSyncOperation_self_inc sigf ser opType data ts s hn,
    fun hash ser2 sec op => applySyncOperationFaithful_no_mutation hash ser2 sec op s,
    ?_⟩
  intro info
  by_cases hid : info.device_id = s.device_id
  · simp [addDevice, hid]
  · simp only [addDevice, if_neg hid]
    by_cases hs : (dlookup s.vector_clock info.device_id).isSome
    · simp [hs]
    · simp only [hs, Bool.false_eq_true, if_false]
      rw [dlookup0_dictSet]
      rw [if_neg (fun h => hid h.symm)]

theorem c6_monotonic_self_clock_witness :
    (keysOf c6wState.vector_clock).Nodup ∧
    dlookup0 (localWrites (fun l => l) (fun _ => []) c6wWrites c6wState).vector_clock
        c6wState.device_id
      = dlookup0 c6wState.vector_clock c6wState.device_id + 2 :=
  ⟨by decide,
    (c6_monotonic_self_clock (fun l => l) (fun _ => []) c6wState c6wWrites
      (by decide)).1⟩

theorem checkPerms_eq_true_iff (l : List Permission) (cap : String)
    (req : PermissionLevel) :
    (checkPerms l cap req = true ↔
      ∃ p, l.find? (fun q => q.capability == cap) = some p ∧
        levelIdx req ≤ levelIdx p.level) := by
  induction l with
  | nil => simp [checkPerms]
  | cons p rest ih =>
      by_cases hc : p.capability = cap
      · rw [List.find?_cons_of_pos _ (by simp [hc])]
        simp [checkPerms, hc]
      · rw [List.find?_cons_of_neg _ (by simp [hc])]
        simp only [checkPerms, if_neg hc]
        exact ih

theorem perm_eq_of_nodup_caps {l : List Permission}
    (hn : (l.map Permission.capability).Nodup) :
    ∀ {p q : Permission}, p ∈ l → q ∈ l → p.capability = q.capability → p = q := by
  induction l with
  | nil =>
      intro p q hp _ _
      simp at hp
  | cons a rest ih =>
      intro p q hp hq hcap
      have hcons : (a.capability :: rest.map Permission.capability).Nodup := hn
      have hna : a.capability ∉ rest.map Permission.capability :=
        (List.nodup_cons.mp hcons).1
      have hnr : (rest.map Permission.capability).Nodup :=
        (List.nodup_cons.mp hcons).2
      rcases List.mem_cons.mp hp with hp1 | hp1 <;>
        rcases List.mem_cons.mp hq with hq1 | hq1
      · rw [hp1, hq1]
      · subst hp1
        have hmem : p.capability ∈ rest.map Permission.capability := by
          rw [hcap]
          exact List.mem_map_of_mem _ hq1
        exact absurd hmem hna
      · subst hq1
        have hmem : q.capability ∈ rest.map Permission.capability := by
          rw [← hcap]
          exact List.mem_map_of_mem _ hp1
        exact absurd hmem hna
      · exact ih hnr hp1 hq1 hcap

/-- Claim C7 counterexample: a state reachable through the public API
(`trust_device` with the duplicate capability list `["mic", "mic"]`, then
`grant_permission(d, mic, none)`) leaves device `d` trusted and holding a
permission for `mic` at level `read` (≥ the required `read`), yet
`check_permission(d, mic, read)` returns `False`: the loop decides by the
FIRST matching permission, which `grant_permission` set to `none`. -/
theorem c7_check_permission_counterexample :
    checkPermission "d" "mic" PermissionLevel.read c7exState2 = false ∧
    (dlookup c7exState2.trusted_devices "d").isSome = true ∧
    ((dlookup c7exState2.trusted_devices "d").map (fun dev =>
        dev.permissions.any (fun p => p.capability == "mic"
          && decide (levelIdx PermissionLevel.read ≤ levelIdx p.level))))
      = some true :=
  ⟨rfl, rfl, rfl⟩

/-- Claim C7 (amended): `check_permission` returns `True` iff the device is
trusted and the FIRST permission in its list matching the capability has
stored level ≥ the required level under none < read < write < admin; it
returns `False` (without raising) for an unknown device.  When the device's
permission list has pairwise-distinct capabilities — the only case the claim
contemplates — this coincides with "holds a permission for the capability
with stored level ≥ L". -/
theorem c7_check_permission_first_match (s : SecurityState) (d cap : String)
    (L : PermissionLevel) :
    (checkPermission d cap L s = true ↔
      ∃ dev p, dlookup s.trusted_devices d = some dev ∧
        dev.permissions.find? (fun q => q.capability == cap) = some p ∧
        levelIdx L ≤ levelIdx p.level) ∧
    (dlookup s.trusted_devices d = Option.none →
      checkPermission d cap L s = false) ∧
    (∀ dev, dlookup s.trusted_devices d = some dev →
      (dev.permissions.map Permission.capability).Nodup →
      (checkPermission d cap L s = true ↔
        ∃ p ∈ dev.permissions, p.capability = cap ∧
          levelIdx L ≤ levelIdx p.level)) := by
  refine ⟨?_, ?_, ?_⟩
  · cases hl : dlookup s.trusted_devices d with
    | none =>
        simp only [checkPermission, hl]
        constructor
        · intro hfalse
          simp at hfalse
        · rintro ⟨dev, p, hdev, _, _⟩
          simp at hdev
    | some dev =>
        simp only [checkPermission, hl]
        rw [checkPerms_eq_true_iff]
        constructor
        · rintro ⟨p, hf, hlev⟩
          exact ⟨dev, p, rfl, hf, hlev⟩
        · rintro ⟨dev', p, hdev, hf, hlev⟩
          injection hdev with hdd
          subst hdd
          exact ⟨p, hf, hlev⟩
  · intro hl
    simp [checkPermission, hl]
  · intro dev hl hnodup
    simp only [checkPermission, hl]
    rw [checkPerms_eq_true_iff]
    constructor
    · rintro ⟨p, hf, hlev⟩
      have hp := List.mem_of_find?_eq_some hf
      have hcap : p.capability = cap := by simpa using List.find?_some hf
      exact ⟨p, hp, hcap, hlev⟩
    · rintro ⟨p, hp, hcap, hlev⟩
      have hsome : (dev.permissions.find? (fun q => q.capability == cap)).isSome := by
        rw [List.find?_isSome]
        exact ⟨p, hp, by simp [hcap]⟩
      rcases Option.isSome_iff_exists.mp hsome with ⟨q, hq⟩
      have hqmem := List.mem_of_find?_eq_some hq
      have hqcap : q.capability = cap := by simpa using List.find?_some hq
      have hqp : q = p := by
        refine perm_eq_of_nodup_caps hnodup hqmem hp ?_
        rw [hqcap, hcap]
      refine ⟨q, hq, ?_⟩
      rw [hqp]
      exact hlev

theorem c7_check_permission_first_match_witness :
    checkPermission "d" "mic" PermissionLevel.read c7wState = true :=
  (c7_check_permission_first_match c7wState "d" "mic" PermissionLevel.read).1.mpr
    ⟨c7wDev, c7wPerm, rfl, rfl, by decide⟩

/-- Claim C8 counterexample: when the storage write fails (`saveOk = false`,
i.e. `_save_trusted_devices` hits an I/O error, which it catches, logs, and
swallows), `trust_device` STILL returns `True` and registers the device in
memory, while nothing was persisted — contradicting "the trusted-device set
is persisted ... it returns false only when persisting the set fails". -/
theorem c8_trust_device_counterexample :
    (trustDevice false [9] 0 "d" "dev" "mobile" [1] [2] ["mic"] c8exState).2
      = true ∧
    (dlookup ((trustDevice false [9] 0 "d" "dev" "mobile" [1] [2] ["mic"]
        c8exState).1).trusted_devices "d").isSome = true ∧
    ((trustDevice false [9] 0 "d" "dev" "mobile" [1] [2] ["mic"]
        c8exState).1).stored_devices = Option.none :=
  ⟨rfl, rfl, rfl⟩

/-- Claim C8 (amended): `trust_device` registers the device with each listed
KNOWN capability at the default level `read` and always returns `True`; the
persistence attempt happens, but a storage I/O error during it is caught
inside `_save_trusted_devices` and swallowed, so the call returns `True`
(and keeps the in-memory registration) even when nothing was persisted — it
never returns `False` because of a save failure. -/
theorem c8_trust_device (saveOk : Bool) (rnd : List Nat) (now : Nat)
    (did dname dtype : String) (pk sk : List Nat) (perms : List String)
    (s : SecurityState) :
    (trustDevice saveOk rnd now did dname dtype pk sk perms s).2 = true ∧
    (∃ dev,
      dlookup ((trustDevice saveOk rnd now did dname dtype pk sk perms
          s).1).trusted_devices did = some dev ∧
      dev.permissions = (perms.filter (fun c => capabilitiesList.contains c)).map
        (fun c =>
          { capability := c, level := PermissionLevel.read,
            granted_by := s.device_id, granted_at := now })) ∧
    (saveOk = true →
      ((trustDevice saveOk rnd now did dname dtype pk sk perms s).1).stored_devices
        = some ((trustDevice saveOk rnd now did dname dtype pk sk perms
            s).1).trusted_devices) ∧
    (saveOk = false →
      ((trustDevice saveOk rnd now did dname dtype pk sk perms s).1).stored_devices
        = s.stored_devices) := by
  refine ⟨?_, ⟨{ device_id := did, device_name := dname, device_type := dtype,
                 public_key := pk, signing_public_key := sk,
                 permissions := (perms.filter (fun c => capabilitiesList.contains c)).map
                   (fun c =>
                     { capability := c, level := PermissionLevel.read,
                       granted_by := s.device_id, granted_at := now }),
                 trusted_at := now, last_seen := now, is_active := true },
               ?_, rfl⟩, ?_, ?_⟩
  · cases saveOk <;> rfl
  · cases saveOk <;> exact dlookup_dictSet_self _ _ _
  · intro h
    subst h
    rfl
  · intro h
    subst h
    rfl

theorem c8_trust_device_witness :
    ((trustDevice true [9] 0 "d" "dev" "mobile" [1] [2] ["mic"]
        c8wState).1).stored_devices
      = some ((trustDevice true [9] 0 "d" "dev" "mobile" [1] [2] ["mic"]
          c8wState).1).trusted_devices :=
  (c8_trust_device true [9] 0 "d" "dev" "mobile" [1] [2] ["mic"] c8wState).2.2.1 rfl

/-- Claim C9 counterexample: `grant_permission` on a device absent from the
trusted set returns `False` normally (`Except.ok false`); it does NOT raise
`UnknownDeviceError` (the code has no such exception — it logs a warning
and returns `False`). -/
theorem c9_grant_unknown_counterexample :
    (grantPermission true 0 "X" "mic" PermissionLevel.read c9exState).2
      = Except.ok false ∧
    (grantPermission true 0 "X" "mic" PermissionLevel.read c9exState).2
      ≠ Except.error SecError.unknownDeviceError :=
  ⟨rfl, fun h => Except.noConfusion h⟩

/-- Claim C9 (amended): calling `grant_permission` with a device_id not in
the trusted-device set returns `False` without raising any exception, and
the whole security state — in particular every device's permission set — is
left unchanged. -/
theorem c9_grant_unknown_device (saveOk : Bool) (now : Nat) (did cap : String)
    (lvl : PermissionLevel) (s : SecurityState)
    (h : dlookup s.trusted_devices did = Option.none) :
    grantPermission saveOk now did cap lvl s = (s, Except.ok false) := by
  simp [grantPermission, h]

theorem c9_grant_unknown_device_witness :
    dlookup c9wState.trusted_devices "X" = Option.none ∧
    grantPermission true 0 "X" "mic" PermissionLevel.read c9wState
      = (c9wState, Except.ok false) :=
  ⟨rfl, c9_grant_unknown_device true 0 "X" "mic" PermissionLevel.read c9wState rfl⟩

/-- Claim C10: `_apply_operation` merges the operation's clock into the
global vector clock by pointwise max unconditionally — before any newness or
document-existence check, so the equation holds for every operation,
including stale ones and ones whose `document_id` is absent — and no entry
of the global clock ever decreases through `_apply_operation`,
`_create_sync_operation`, or `add_device`. -/
theorem c10_global_clock_merge (op : SyncOperation) (s : SyncEngineState)
    (d : String) (info : DeviceInfo) (sigf : List Nat → List Nat)
    (ser : SyncOperation → List Nat) (opType : String) (data : OpData) (ts : Nat) :
    dlookup0 (applyOperation op s).vector_clock d
      = max (dlookup0 s.vector_clock d) (entriesMax op.vector_clock d) ∧
    dlookup0 s.vector_clock d ≤ dlookup0 (applyOperation op s).vector_clock d ∧
    dlookup0 s.vector_clock d ≤
      dlookup0 ((createSyncOperation sigf ser opType data ts s).1).vector_clock d ∧
    dlookup0 s.vector_clock d ≤ dlookup0 (addDevice info s).vector_clock d := by
  refine ⟨?_, ?_, ?_, ?_⟩
  · exact dlookup0_vcMergeMax op.vector_clock s.vector_clock d
  · exact dlookup0_le_vcMergeMax _ _ _
  · show dlookup0 s.vector_clock d ≤ dlookup0 (vcMergeMax
      (dictSet s.vector_clock s.device_id (dlookup0 s.vector_clock s.device_id + 1))
      (dictSet s.vector_clock s.device_id (dlookup0 s.vector_clock s.device_id + 1))) d
    refine le_trans ?_ (dlookup0_le_vcMergeMax _ _ _)
    rw [dlookup0_dictSet]
    by_cases hd : d = s.device_id
    · subst hd
      simp
    · simp [hd]
  · by_cases hid : info.device_id = s.device_id
    · simp [addDevice, hid]
    · simp only [addDevice, if_neg hid]
      by_cases hs : (dlookup s.vector_clock info.device_id).isSome
      · simp [hs]
      · simp only [hs, Bool.false_eq_true, if_false]
        rw [dlookup0_dictSet]
        by_cases hd : d = info.device_id
        · subst hd
          have hnone : dlookup s.vector_clock info.device_id = none := by
            cases hl : dlookup s.vector_clock info.device_id with
            | none => rfl
            | some w =>
                rw [hl] at hs
                simp at hs
          simp [dlookup0, hnone]
        · simp [hd]

end Buddy
